import Mathlib

/-!
Shallow embedding of `src/mock_interview_app/main.py` (the Garuda candidate
evaluation API) and proofs about its request-validation and error-translation
behaviour.

The three HTTP handlers (`langchain_questions` for POST /questions,
`check_answers` for POST /check-answers, `complete_evaluation` for
POST /complete-evaluation) are embedded as pure Lean functions.  External
collaborators — the fitz-based PDF text extraction, the language-model client
(`get_questions`, `get_evaluation`, `evaluate_candidate` from the
`api_request` module, which is not part of the source tree) — are modelled as
oracle arguments describing the outcome of the one call the handler makes to
them.  Each handler additionally returns the ordered list of collaborator
calls it performed, so that "no external work on invalid input" properties
can be stated.

Python exception semantics that matter here are modelled explicitly: FastAPI
`HTTPException` is a subclass of `Exception`, so an `except Exception` clause
catches it; raised exceptions are values of `PyExc` and each `try/except`
block is a total function on them.
-/

namespace Garuda

/-- A raised Python exception, as far as the handlers can observe it:
either a FastAPI `HTTPException` carrying a status code and a detail string,
or any other exception carrying its message. -/
inductive PyExc where
  | http (statusCode : Nat) (detail : String)
  | other (msg : String)
deriving DecidableEq, Repr

/-- Python `str(e)` on an exception: Starlette renders `HTTPException` as
`"{status}: {detail}"` (written here with `++`); other exceptions render as
their message. -/
def pyStr : PyExc → String
  | .http s d => toString s ++ ": " ++ d
  | .other m => m

/-- The outcome of a Python block that may raise: either it raised an
exception or it produced a value. -/
inductive StageOut (α : Type) where
  | raised (e : PyExc)
  | value (a : α)
deriving DecidableEq, Repr

/-- The external collaborators a handler can invoke, in the order invoked. -/
inductive Call where
  | extractor
  | evalClient
deriving DecidableEq, Repr

/-- The content-type allow-list from both file-accepting handlers:
`["application/pdf", "application/x-pdf"]`. -/
def pdfAllowList : List String := ["application/pdf", "application/x-pdf"]

/-- The characters Python `str.strip()` removes: space, tab, newline,
carriage return, vertical tab, form feed. -/
def pyWhitespace (c : Char) : Bool :=
  c = ' ' || c = '\t' || c = '\n' || c = '\r' || c = Char.ofNat 11 || c = Char.ofNat 12

/-- Python `s.strip()`: drop leading and trailing whitespace. -/
def pyStrip (s : String) : String :=
  String.mk (((s.data.dropWhile pyWhitespace).reverse.dropWhile pyWhitespace).reverse)

/-- Oracle for the fitz-based extraction (`fitz.open` plus the page loop):
either the concatenated page text, or an underlying exception message. -/
inductive ExtractOutcome where
  | text (t : String)
  | exn (msg : String)
deriving DecidableEq, Repr

/-- The inner `try`/`except` block around PDF text extraction, shared verbatim
by `/questions` and `/complete-evaluation`.  Inside the `try`, an empty or
whitespace-only extracted text raises `HTTPException(422, ...)`; but the
block ends with `except Exception as e`, which also catches that
`HTTPException` and re-raises `HTTPException(500, "Failed to process PDF: "
+ str(e))`. -/
def extractTextBlock (ex : ExtractOutcome) : StageOut String :=
  let inner : StageOut String :=
    match ex with
    | .exn m => .raised (.other m)
    | .text t =>
      if t = "" ∨ pyStrip t = "" then
        .raised (.http 422 "Could not extract text from PDF. The file may be empty or corrupted.")
      else .value t
  match inner with
  | .value t => .value t
  | .raised e => .raised (.http 500 ("Failed to process PDF: " ++ pyStr e))

/-- The `data` form field of `/questions` after `json.loads`: absent/empty
(`json_data = {}`), undecodable (`json.JSONDecodeError`), or a decoded JSON
object given by its entries (values kept abstractly as strings; no claim
inspects them). -/
inductive ParsedData where
  | noData
  | decodeError
  | dict (entries : List (String × String))
deriving DecidableEq, Repr

/-- `required_fields = ['techStack', 'difficultyLevel', 'questionCount']`. -/
def requiredFields : List String := ["techStack", "difficultyLevel", "questionCount"]

/-- The keys of a decoded JSON object. -/
def jsonKeys (entries : List (String × String)) : List String := entries.map Prod.fst

/-- The first required field not present among `keys` — the `for field in
required_fields` loop raises at the first missing field. -/
def firstMissing (keys : List String) : Option String :=
  requiredFields.find? (fun f => !(keys.contains f))

/-- The JSON-validation block of `/questions`: `json.loads(data) if data else
{}`; a falsy result raises 400 "Missing required parameters in JSON data"; a
decode error raises 400 "Invalid JSON data format"; a missing required field
raises 400 naming it.  (An `HTTPException` raised inside this `try` is not
caught by `except json.JSONDecodeError` and propagates.) -/
def jsonStage (d : ParsedData) : StageOut (List (String × String)) :=
  match d with
  | .decodeError => .raised (.http 400 "Invalid JSON data format")
  | .noData => .raised (.http 400 "Missing required parameters in JSON data")
  | .dict entries =>
    if entries.isEmpty then
      .raised (.http 400 "Missing required parameters in JSON data")
    else
      match firstMissing (jsonKeys entries) with
      | some f => .raised (.http 400 ("Missing required field: " ++ f))
      | none => .value entries

/-- Oracle for the question-generation block (`prepare_prompt` +
`get_questions`): a list of questions, a `ValueError` message, or any other
exception message. -/
inductive GenOutcome where
  | questions (qs : List String)
  | valueError (msg : String)
  | failure (msg : String)
deriving DecidableEq, Repr

/-- `processed_data` returned as `metadata` by `/questions`. -/
structure Metadata where
  file_size : Nat
  file_name : String
  json_data : List (String × String)
deriving DecidableEq, Repr

/-- Response of the `/questions` handler: an error response with a status
code and `detail`, the `JSONResponse(status_code=204, ...)` carrying a
message, or the success dictionary `{metadata, questions, count}`. -/
inductive QResult where
  | httpError (statusCode : Nat) (detail : String)
  | noContent (statusCode : Nat) (message : String)
  | success (metadata : Metadata) (questions : List String) (count : Nat)
deriving DecidableEq, Repr

/-- The outermost `except HTTPException: raise` / `except Exception` pair of
`/questions`, mapping a propagated exception to the final response. -/
def qOutcome : PyExc → QResult
  | .http s d => .httpError s d
  | .other m => .httpError 500 ("An unexpected error occurred: " ++ m)

/-- The POST /questions handler.  Faithful order: content-type check, file
read, JSON validation, PDF text extraction, question generation. -/
def langchain_questions (content_type : String) (file_name : String)
    (file_size : Nat) (data : ParsedData) (ex : ExtractOutcome)
    (gen : GenOutcome) : QResult × List Call :=
  if !(pdfAllowList.contains content_type) then
    (.httpError 415 "File is not a valid PDF", [])
  else
    match jsonStage data with
    | .raised e => (qOutcome e, [])
    | .value entries =>
      let processed_data : Metadata :=
        { file_size := file_size, file_name := file_name, json_data := entries }
      match extractTextBlock ex with
      | .raised e => (qOutcome e, [.extractor])
      | .value _resume_text =>
        match gen with
        | .questions qs =>
          if qs.isEmpty then
            (.noContent 204 "No questions could be generated. Try adjusting parameters.",
             [.extractor, .evalClient])
          else
            (.success processed_data qs qs.length, [.extractor, .evalClient])
        | .valueError m => (.httpError 400 m, [.extractor, .evalClient])
        | .failure m =>
          (.httpError 500 ("Failed to generate questions: " ++ m),
           [.extractor, .evalClient])

/-- A value of the `/check-answers` request body's mapping.  FastAPI's
`Body(...)` with plain `dict` admits arbitrary JSON values, so a value is a
string, a truthy non-string (e.g. a nonzero number — calling `.strip()` on
it raises `AttributeError`), or a falsy non-string (e.g. `0` or `null` —
short-circuited by `not a` before `.strip()` is reached). -/
inductive PyVal where
  | str (s : String)
  | nonStrTruthy (typeName : String)
  | nonStrFalsy
deriving DecidableEq, Repr

/-- The list comprehension
`[q for q, a in json_data.items() if not a or not a.strip()]`:
collects the questions with empty answers left to right, or raises
`AttributeError` at the first truthy non-string value. -/
def empty_answers : List (String × PyVal) → StageOut (List String)
  | [] => .value []
  | (q, v) :: rest =>
    match v with
    | .nonStrTruthy tn =>
      .raised (.other ("AttributeError: " ++ tn ++ " object has no attribute strip"))
    | .str s =>
      match empty_answers rest with
      | .raised e => .raised e
      | .value l => .value (if s = "" ∨ pyStrip s = "" then q :: l else l)
    | .nonStrFalsy =>
      match empty_answers rest with
      | .raised e => .raised e
      | .value l => .value (q :: l)

/-- Oracle for `get_evaluation(prompt)`: a numeric score, an
`EvaluationError` message, or any other exception message. -/
inductive ScoreOutcome where
  | score (s : Int)
  | evalError (msg : String)
  | failure (msg : String)
deriving DecidableEq, Repr

/-- Modelled from the spec: `get_feedback_for_score` is imported from the
`api_request` module, which is absent from the source tree.  Spec §4.5
describes the FeedbackMapper as a pure, deterministic lookup/threshold
mapping from numeric score ranges to fixed feedback text, total over the
valid score domain, never producing an empty string. -/
def get_feedback_for_score (score : Int) : String :=
  if score ≥ 90 then "Excellent performance. Strong command of the topics."
  else if score ≥ 75 then "Good performance with minor gaps."
  else if score ≥ 50 then "Average performance. Several areas need work."
  else "Needs significant improvement."

/-- Response of the `/check-answers` handler: an error response, or the
success dictionary `{score, feedback, evaluated_answers, status}`. -/
inductive CAResult where
  | httpError (statusCode : Nat) (detail : String)
  | success (score : Int) (feedback : String) (evaluated_answers : Nat)
      (statusField : String)
deriving DecidableEq, Repr

/-- The outermost exception translation of `/check-answers`. -/
def caOutcome : PyExc → CAResult
  | .http s d => .httpError s d
  | .other m => .httpError 500 ("An unexpected error occurred: " ++ m)

/-- The POST /check-answers handler.  `json_data: dict = Body(...)` already
guarantees a dict, so the `isinstance` guard never fires; the handler then
rejects an empty map, rejects (with a count) maps containing empty answers,
and otherwise calls the evaluation client and maps the score to feedback. -/
def check_answers (json_data : List (String × PyVal)) (ev : ScoreOutcome) :
    CAResult × List Call :=
  if json_data.isEmpty then
    (.httpError 400 "No question-answer pairs provided", [])
  else
    match empty_answers json_data with
    | .raised e => (caOutcome e, [])
    | .value l =>
      if !l.isEmpty then
        (.httpError 400
          ("Empty answers provided for " ++ toString l.length ++ " questions"), [])
      else
        match ev with
        | .score s =>
          (.success s (get_feedback_for_score s) json_data.length "success",
           [.evalClient])
        | .evalError m =>
          (.httpError 500 ("Evaluation failed: " ++ m), [.evalClient])
        | .failure m =>
          (.httpError 500 ("An unexpected error occurred: " ++ m), [.evalClient])

/-- The tagged result dictionary returned by `evaluate_candidate` (external
to this handler): a `status` tag, the `error` message read when the tag is
`"error"`, and the remaining payload kept abstract. -/
structure CEvalResult where
  statusTag : String
  errorMsg : String
  payload : List (String × String)
deriving DecidableEq, Repr

/-- Response of the `/complete-evaluation` handler: an error response or the
`evaluate_candidate` result returned unchanged. -/
inductive CEResult where
  | httpError (statusCode : Nat) (detail : String)
  | success (result : CEvalResult)
deriving DecidableEq, Repr

/-- The outermost exception translation of `/complete-evaluation`. -/
def ceOutcome : PyExc → CEResult
  | .http s d => .httpError s d
  | .other m => .httpError 500 ("An unexpected error occurred: " ++ m)

/-- The POST /complete-evaluation handler.  Faithful order: content-type
check, file read, PDF text extraction, THEN the scalar validations
(tech stack, difficulty range, question-count range, non-empty answers),
then the `evaluate_candidate` call whose `"error"` status is translated to
a 500 carrying the embedded message.  `difficulty: int = Body(...)` and
`question_count: int = Body(...)` are already ints, so `int(...)` cannot
fail and only the range checks can raise `ValueError`. -/
def complete_evaluation (content_type : String) (ex : ExtractOutcome)
    (tech_stack : String) (difficulty : Int) (question_count : Int)
    (answers : List (String × String)) (result : CEvalResult) :
    CEResult × List Call :=
  if !(pdfAllowList.contains content_type) then
    (.httpError 415 "File is not a valid PDF", [])
  else
    match extractTextBlock ex with
    | .raised e => (ceOutcome e, [.extractor])
    | .value _resume_text =>
      if tech_stack = "" ∨ pyStrip tech_stack = "" then
        (.httpError 400 "Tech stack cannot be empty", [.extractor])
      else if ¬ (1 ≤ difficulty ∧ difficulty ≤ 5) then
        (.httpError 400 "Difficulty must be an integer between 1 and 5", [.extractor])
      else if ¬ (1 ≤ question_count ∧ question_count ≤ 20) then
        (.httpError 400 "Question count must be an integer between 1 and 20", [.extractor])
      else if answers.isEmpty then
        (.httpError 400 "No answers provided for evaluation", [.extractor])
      else if result.statusTag = "error" then
        (.httpError 500 result.errorMsg, [.extractor, .evalClient])
      else
        (.success result, [.extractor, .evalClient])

/-! ### Helper predicates and lemmas -/

/-- Whether a request-body value is a string. -/
def isStr : PyVal → Bool
  | .str _ => true
  | _ => false

/-- Whether a request-body value is a truthy non-string. -/
def isNonStrTruthy : PyVal → Bool
  | .nonStrTruthy _ => true
  | _ => false

/-- Whether a request-body value is a string that is empty or
whitespace-only after stripping. -/
def isEmptyStrAnswer : PyVal → Bool
  | .str s => decide (s = "" ∨ pyStrip s = "")
  | _ => false

/-- The number of empty/whitespace-only string answers in a map. -/
def emptyAnswerCount (m : List (String × PyVal)) : Nat :=
  (m.filter (fun p => isEmptyStrAnswer p.2)).length

/-- Every exception the JSON-validation block of `/questions` raises is an
`HTTPException` with status 400. -/
theorem jsonStage_raised_400 (d : ParsedData) (e : PyExc)
    (h : jsonStage d = .raised e) : ∃ det, e = .http 400 det := by
  cases d with
  | decodeError => exact ⟨_, by simpa [jsonStage] using h.symm⟩
  | noData => exact ⟨_, by simpa [jsonStage] using h.symm⟩
  | dict entries =>
    by_cases he : entries.isEmpty
    · rw [jsonStage, if_pos he] at h
      exact ⟨_, by simpa using h.symm⟩
    · rw [jsonStage, if_neg he] at h
      cases hf : firstMissing (jsonKeys entries) with
      | some f => rw [hf] at h; exact ⟨_, by simpa using h.symm⟩
      | none => rw [hf] at h; simp at h

/-- On a map whose values are all strings, the list comprehension never
raises and collects exactly the questions with empty/whitespace-only
answers, in order. -/
theorem empty_answers_of_all_str (m : List (String × PyVal))
    (hstr : m.all (fun p => isStr p.2) = true) :
    empty_answers m
      = .value ((m.filter (fun p => isEmptyStrAnswer p.2)).map Prod.fst) := by
  induction m with
  | nil => rfl
  | cons hd tl ih =>
    rw [List.all_cons, Bool.and_eq_true] at hstr
    obtain ⟨q, v⟩ := hd
    cases v with
    | nonStrTruthy tn => simp [isStr] at hstr
    | nonStrFalsy => simp [isStr] at hstr
    | str s =>
      rw [empty_answers, ih hstr.2]
      by_cases hc : (s = "" ∨ pyStrip s = "")
      · simp [List.filter_cons, isEmptyStrAnswer, hc]
      · simp [List.filter_cons, isEmptyStrAnswer, hc]

/-- A map containing a truthy non-string value makes the list comprehension
raise an `AttributeError`. -/
theorem empty_answers_raises (m : List (String × PyVal))
    (h : m.any (fun p => isNonStrTruthy p.2) = true) :
    ∃ msg, empty_answers m = .raised (.other msg) := by
  induction m with
  | nil => simp at h
  | cons hd tl ih =>
    obtain ⟨q, v⟩ := hd
    cases v with
    | nonStrTruthy tn =>
      exact ⟨"AttributeError: " ++ tn ++ " object has no attribute strip", rfl⟩
    | str s =>
      rw [List.any_cons] at h
      simp [isNonStrTruthy] at h
      obtain ⟨msg, hmsg⟩ := ih (by simpa using h)
      exact ⟨msg, by rw [empty_answers, hmsg]⟩
    | nonStrFalsy =>
      rw [List.any_cons] at h
      simp [isNonStrTruthy] at h
      obtain ⟨msg, hmsg⟩ := ih (by simpa using h)
      exact ⟨msg, by rw [empty_answers, hmsg]⟩

/-! ### Claims -/

/-- C9: the FeedbackMapper is total and deterministic — for every score it
produces a feedback string that is never empty, and equal scores always
yield the same feedback string. -/
theorem C9_feedback_total_deterministic :
    (∀ s : Int, get_feedback_for_score s ≠ "") ∧
    (∀ s t : Int, s = t → get_feedback_for_score s = get_feedback_for_score t) := by
  constructor
  · intro s
    unfold get_feedback_for_score
    split
    · decide
    · split
      · decide
      · split
        · decide
        · decide
  · intro s t h
    rw [h]

/-- Witness for C9 at the concrete score 80. -/
theorem C9_feedback_total_deterministic_witness :
    get_feedback_for_score 80 ≠ "" ∧
    get_feedback_for_score 80 = get_feedback_for_score 80 :=
  ⟨C9_feedback_total_deterministic.1 80,
   C9_feedback_total_deterministic.2 80 80 rfl⟩

/-- C5: for every uploaded file whose content type is not in the PDF
allow-list, both `/questions` and `/complete-evaluation` return 415 and
invoke no collaborator (the returned call trace is empty). -/
theorem C5_non_pdf_415_no_collaborators (ct fn : String) (fs : Nat)
    (d : ParsedData) (ex : ExtractOutcome) (g : GenOutcome)
    (ts : String) (diff qc : Int) (ans : List (String × String)) (r : CEvalResult)
    (hct : pdfAllowList.contains ct = false) :
    langchain_questions ct fn fs d ex g = (.httpError 415 "File is not a valid PDF", []) ∧
    complete_evaluation ct ex ts diff qc ans r
      = (.httpError 415 "File is not a valid PDF", []) := by
  constructor
  · rw [langchain_questions, hct]
    rfl
  · rw [complete_evaluation, hct]
    rfl

/-- Witness for C5 at the concrete content type `text/plain`. -/
theorem C5_non_pdf_415_no_collaborators_witness :
    langchain_questions "text/plain" "resume.pdf" 1 .noData (.text "x") (.questions ["q"])
      = (.httpError 415 "File is not a valid PDF", []) ∧
    complete_evaluation "text/plain" (.text "x") "Python" 3 5 [("q","a")]
        ⟨"success", "", []⟩
      = (.httpError 415 "File is not a valid PDF", []) :=
  C5_non_pdf_415_no_collaborators "text/plain" "resume.pdf" 1 .noData (.text "x")
    (.questions ["q"]) "Python" 3 5 [("q","a")] ⟨"success", "", []⟩ (by decide)

/-- C2 (actual behaviour at the failing input): an uploaded PDF whose
extracted text is whitespace-only makes both `/questions` (with a valid
payload) and `/complete-evaluation` (with valid scalars) terminate with
status 500, not the specified 422 — the `HTTPException(422, ...)` raised
inside the extraction `try` block is caught by its own
`except Exception` clause and re-raised as
`HTTPException(500, "Failed to process PDF: " + str(e))`. -/
theorem C2_empty_text_pdf_returns_500 :
    (langchain_questions "application/pdf" "resume.pdf" 4
        (.dict [("techStack", "Python"), ("difficultyLevel", "3"), ("questionCount", "5")])
        (.text "   ") (.questions ["q"])).1
      = .httpError 500
          "Failed to process PDF: 422: Could not extract text from PDF. The file may be empty or corrupted." ∧
    (complete_evaluation "application/pdf" (.text "   ") "Python" 3 5 [("q","a")]
        ⟨"success", "", []⟩).1
      = .httpError 500
          "Failed to process PDF: 422: Could not extract text from PDF. The file may be empty or corrupted." := by
  decide

/-- C4 counterexample: the empty JSON object `{}` is a payload missing the
required key `techStack`, yet `/questions` answers it with the generic
detail "Missing required parameters in JSON data", which does not name any
required field. -/
theorem C4_counterexample :
    (jsonKeys []).contains "techStack" = false ∧
    (langchain_questions "application/pdf" "resume.pdf" 1 (.dict [])
        (.text "resume") (.questions ["q"]))
      = (.httpError 400 "Missing required parameters in JSON data", []) ∧
    (∀ f ∈ requiredFields,
      "Missing required parameters in JSON data" ≠ "Missing required field: " ++ f) := by
  decide

/-- C4 (amended): for every NONEMPTY JSON object payload missing at least one
of the required keys, `/questions` returns 400 with a detail naming a
missing required field (the first one, in the order `techStack`,
`difficultyLevel`, `questionCount`), and no collaborator is invoked; the
empty object instead yields 400 with a generic message naming no field. -/
theorem C4_missing_field_names_field (fn : String) (fs : Nat)
    (entries : List (String × String)) (ex : ExtractOutcome) (g : GenOutcome)
    (hne : entries ≠ [])
    (hmiss : ∃ f ∈ requiredFields, f ∉ jsonKeys entries) :
    ∃ f ∈ requiredFields, f ∉ jsonKeys entries ∧
      langchain_questions "application/pdf" fn fs (.dict entries) ex g
        = (.httpError 400 ("Missing required field: " ++ f), []) := by
  obtain ⟨f0, hf0⟩ : ∃ f, firstMissing (jsonKeys entries) = some f := by
    cases hmf : firstMissing (jsonKeys entries) with
    | some f => exact ⟨f, rfl⟩
    | none =>
      obtain ⟨f, hfm, hfc⟩ := hmiss
      rw [firstMissing, List.find?_eq_none] at hmf
      have h2 := hmf f hfm
      simp at h2
      exact absurd h2 hfc
  have hfind : requiredFields.find? (fun f => !((jsonKeys entries).contains f)) = some f0 := hf0
  have hf0p : f0 ∉ jsonKeys entries := by
    have h3 := List.find?_some hfind
    simpa using h3
  have hf0m : f0 ∈ requiredFields := List.mem_of_find?_eq_some hfind
  have hni : entries.isEmpty = false := by
    cases entries with
    | nil => exact absurd rfl hne
    | cons a l => rfl
  have hct : pdfAllowList.contains "application/pdf" = true := by decide
  refine ⟨f0, hf0m, hf0p, ?_⟩
  rw [langchain_questions, hct, jsonStage, hni, hf0]
  rfl

/-- Witness for C4 (amended) at the concrete payload containing only
`techStack`. -/
theorem C4_missing_field_names_field_witness :
    ∃ f ∈ requiredFields, f ∉ jsonKeys [("techStack", "Python")] ∧
      langchain_questions "application/pdf" "resume.pdf" 1
          (.dict [("techStack", "Python")]) (.text "resume") (.questions ["q"])
        = (.httpError 400 ("Missing required field: " ++ f), []) :=
  C4_missing_field_names_field "resume.pdf" 1 [("techStack", "Python")]
    (.text "resume") (.questions ["q"]) (by decide)
    ⟨"difficultyLevel", by decide, by decide⟩

/-- C1 counterexample: a `/complete-evaluation` request with a valid PDF and
an out-of-range difficulty (0) does terminate with 400, but the document
text extractor has already been called — validation does NOT occur before
the extraction call. -/
theorem C1_counterexample :
    complete_evaluation "application/pdf" (.text "resume text") "Python" 0 5
        [("q","a")] ⟨"success", "", []⟩
      = (.httpError 400 "Difficulty must be an integer between 1 and 5", [.extractor]) ∧
    Call.extractor ∈ (complete_evaluation "application/pdf" (.text "resume text")
        "Python" 0 5 [("q","a")] ⟨"success", "", []⟩).2 := by
  decide

/-- C1 (amended): every validation failure terminates its request with a 400
outcome before any call to the evaluation client.  In `/questions` (and in
`/check-answers`) validation also precedes the document text extractor, so
the call trace is empty; in `/complete-evaluation`, however, text
extraction runs BEFORE the scalar validations, so an empty tech stack,
out-of-range difficulty or question count, or empty answers map still
yields 400 with no evaluation-client call, but only after the extractor has
been invoked. -/
theorem C1_validation_ordering
    (fn : String) (fs : Nat) (d : ParsedData) (ex : ExtractOutcome) (g : GenOutcome)
    (e : PyExc) (hq : jsonStage d = .raised e)
    (m : List (String × PyVal)) (ev : ScoreOutcome)
    (hm : m = [] ∨ ∃ l, empty_answers m = .value l ∧ l ≠ [])
    (text ts : String) (diff qc : Int) (ans : List (String × String)) (r : CEvalResult)
    (htext : ¬ (text = "" ∨ pyStrip text = ""))
    (hbad : ts = "" ∨ pyStrip ts = "" ∨ ¬ (1 ≤ diff ∧ diff ≤ 5)
      ∨ ¬ (1 ≤ qc ∧ qc ≤ 20) ∨ ans = []) :
    (∃ det, e = .http 400 det ∧
      langchain_questions "application/pdf" fn fs d ex g = (.httpError 400 det, [])) ∧
    ((check_answers m ev).2 = [] ∧
      ∃ det, (check_answers m ev).1 = .httpError 400 det) ∧
    (∃ det, complete_evaluation "application/pdf" (.text text) ts diff qc ans r
      = (.httpError 400 det, [.extractor])) := by
  have hct : pdfAllowList.contains "application/pdf" = true := by decide
  refine ⟨?_, ?_, ?_⟩
  · obtain ⟨det, hdet⟩ := jsonStage_raised_400 d e hq
    refine ⟨det, hdet, ?_⟩
    rw [langchain_questions, hct, hq, hdet]
    rfl
  · rcases hm with hm | ⟨l, hl, hlne⟩
    · subst hm
      exact ⟨rfl, "No question-answer pairs provided", rfl⟩
    · have hni : m.isEmpty = false := by
        cases m with
        | nil =>
          rw [empty_answers] at hl
          cases hl
          exact absurd rfl hlne
        | cons a t => rfl
      have hlni : l.isEmpty = false := by
        cases l with
        | nil => exact absurd rfl hlne
        | cons a t => rfl
      have heq : check_answers m ev
          = (.httpError 400 ("Empty answers provided for " ++ toString l.length
              ++ " questions"), []) := by
        simp [check_answers.eq_def, hni, hl, hlni]
      rw [heq]
      exact ⟨rfl, _, rfl⟩
  · rw [complete_evaluation, hct]
    have hext : extractTextBlock (.text text) = .value text := by
      rw [extractTextBlock]
      simp only [if_neg htext]
    rw [hext]
    rcases hbad with h | h | h | h | h
    · exact ⟨_, by rw [if_pos (Or.inl h)]; rfl⟩
    · exact ⟨_, by rw [if_pos (Or.inr h)]; rfl⟩
    · by_cases hts : (ts = "" ∨ pyStrip ts = "")
      · exact ⟨_, by rw [if_pos hts]; rfl⟩
      · exact ⟨_, by rw [if_neg hts, if_pos h]; rfl⟩
    · by_cases hts : (ts = "" ∨ pyStrip ts = "")
      · exact ⟨_, by rw [if_pos hts]; rfl⟩
      · by_cases hd5 : ¬ (1 ≤ diff ∧ diff ≤ 5)
        · exact ⟨_, by rw [if_neg hts, if_pos hd5]; rfl⟩
        · exact ⟨_, by rw [if_neg hts, if_neg hd5, if_pos h]; rfl⟩
    · by_cases hts : (ts = "" ∨ pyStrip ts = "")
      · exact ⟨_, by rw [if_pos hts]; rfl⟩
      · by_cases hd5 : ¬ (1 ≤ diff ∧ diff ≤ 5)
        · exact ⟨_, by rw [if_neg hts, if_pos hd5]; rfl⟩
        · by_cases hq20 : ¬ (1 ≤ qc ∧ qc ≤ 20)
          · exact ⟨_, by rw [if_neg hts, if_neg hd5, if_pos hq20]; rfl⟩
          · refine ⟨"No answers provided for evaluation", ?_⟩
            rw [if_neg hts, if_neg hd5, if_neg hq20, if_pos (show ans.isEmpty = true by rw [h]; rfl)]
            rfl

/-- Witness for C1 (amended) at concrete requests: `/questions` with an
absent payload, `/check-answers` with one whitespace-only answer,
`/complete-evaluation` with difficulty 0. -/
theorem C1_validation_ordering_witness :
    (∃ det, PyExc.http 400 "Missing required parameters in JSON data" = .http 400 det ∧
      langchain_questions "application/pdf" "resume.pdf" 1 .noData (.text "x")
          (.questions ["q"])
        = (.httpError 400 det, [])) ∧
    ((check_answers [("q1", PyVal.str " ")] (.score 0)).2 = [] ∧
      ∃ det, (check_answers [("q1", PyVal.str " ")] (.score 0)).1
        = .httpError 400 det) ∧
    (∃ det, complete_evaluation "application/pdf" (.text "resume") "Python" 0 5
        [("q","a")] ⟨"success", "", []⟩
      = (.httpError 400 det, [.extractor])) :=
  C1_validation_ordering "resume.pdf" 1 .noData (.text "x") (.questions ["q"])
    (.http 400 "Missing required parameters in JSON data") (by decide)
    [("q1", PyVal.str " ")] (.score 0)
    (Or.inr ⟨["q1"], by decide, by decide⟩)
    "resume" "Python" 0 5 [("q","a")] ⟨"success", "", []⟩
    (by decide) (Or.inr (Or.inr (Or.inl (by decide))))

/-- C3: for every answer map whose values are all strings and at least one of
which is empty or whitespace-only after trimming, `/check-answers` returns
400, the detail reports the exact count of such empty answers, and no
evaluation-client call is made (the call trace is empty, so no prompt ever
reaches the client). -/
theorem C3_empty_answer_count_400 (m : List (String × PyVal)) (ev : ScoreOutcome)
    (hstr : m.all (fun p => isStr p.2) = true)
    (hone : m.any (fun p => isEmptyStrAnswer p.2) = true) :
    check_answers m ev
      = (.httpError 400 ("Empty answers provided for " ++ toString (emptyAnswerCount m)
          ++ " questions"), []) := by
  have hl := empty_answers_of_all_str m hstr
  obtain ⟨p, hpm, hp⟩ := List.any_eq_true.mp hone
  have hni : m.isEmpty = false := by
    cases m with
    | nil => simp at hpm
    | cons a t => rfl
  have hfil : p ∈ m.filter (fun p => isEmptyStrAnswer p.2) :=
    List.mem_filter.mpr ⟨hpm, hp⟩
  have hlni : ((m.filter (fun p => isEmptyStrAnswer p.2)).map Prod.fst).isEmpty = false := by
    cases hf : m.filter (fun p => isEmptyStrAnswer p.2) with
    | nil => rw [hf] at hfil; simp at hfil
    | cons a t => rfl
  have hlen : ((m.filter (fun p => isEmptyStrAnswer p.2)).map Prod.fst).length
      = emptyAnswerCount m := by
    rw [List.length_map, emptyAnswerCount]
  simp only [check_answers.eq_def, hni, hl, hlni, hlen]
  rfl

/-- Witness for C3 at the concrete map with one whitespace-only answer out
of two. -/
theorem C3_empty_answer_count_400_witness :
    check_answers [("q1", PyVal.str " "), ("q2", PyVal.str "fine")] (.score 0)
      = (.httpError 400 ("Empty answers provided for "
          ++ toString (emptyAnswerCount [("q1", PyVal.str " "), ("q2", PyVal.str "fine")])
          ++ " questions"), []) :=
  C3_empty_answer_count_400 [("q1", PyVal.str " "), ("q2", PyVal.str "fine")]
    (.score 0) (by decide) (by decide)

/-- C6: for every `/check-answers` request that passes validation (non-empty
map, no empty answers) and whose evaluation call yields score `s`, the
response is exactly `{score := s, feedback := FeedbackMapper s,
evaluated_answers := number of pairs, status := "success"}`. -/
theorem C6_check_answers_success_shape (m : List (String × PyVal)) (s : Int)
    (hne : m ≠ [])
    (hok : empty_answers m = .value []) :
    check_answers m (.score s)
      = (.success s (get_feedback_for_score s) m.length "success", [.evalClient]) := by
  have hni : m.isEmpty = false := by
    cases m with
    | nil => exact absurd rfl hne
    | cons a t => rfl
  simp only [check_answers.eq_def, hni, hok]
  rfl

/-- Witness for C6 at a concrete one-answer map and score 80. -/
theorem C6_check_answers_success_shape_witness :
    check_answers [("q1", PyVal.str "a closure captures its environment")] (.score 80)
      = (.success 80 (get_feedback_for_score 80) 1 "success", [.evalClient]) :=
  C6_check_answers_success_shape [("q1", PyVal.str "a closure captures its environment")]
    80 (by decide) (by decide)

/-- C7: for every `/questions` request that reaches question generation
(valid content type, complete payload, extractable text), an empty question
set from the client yields the distinguished 204 no-content outcome with a
message — a `QResult.noContent`, which is a different constructor from the
error outcome `QResult.httpError` — while a non-empty set yields
`{metadata, questions, count}` with `count` equal to the number of
questions. -/
theorem C7_questions_outcome (fn : String) (fs : Nat)
    (entries : List (String × String)) (text : String) (qs : List String)
    (hne : entries ≠ [])
    (hall : firstMissing (jsonKeys entries) = none)
    (htext : ¬ (text = "" ∨ pyStrip text = "")) :
    (qs = [] →
      langchain_questions "application/pdf" fn fs (.dict entries) (.text text)
          (.questions qs)
        = (.noContent 204 "No questions could be generated. Try adjusting parameters.",
           [.extractor, .evalClient])) ∧
    (qs ≠ [] →
      langchain_questions "application/pdf" fn fs (.dict entries) (.text text)
          (.questions qs)
        = (.success ⟨fs, fn, entries⟩ qs qs.length, [.extractor, .evalClient])) ∧
    (∀ sc det, QResult.noContent 204
        "No questions could be generated. Try adjusting parameters."
      ≠ QResult.httpError sc det) := by
  have hct : pdfAllowList.contains "application/pdf" = true := by decide
  have hni : entries.isEmpty = false := by
    cases entries with
    | nil => exact absurd rfl hne
    | cons a l => rfl
  have hext : extractTextBlock (.text text) = .value text := by
    rw [extractTextBlock]
    simp only [if_neg htext]
  refine ⟨?_, ?_, ?_⟩
  · intro hqs
    subst hqs
    rw [langchain_questions, hct, jsonStage, hni, hall, hext]
    rfl
  · intro hqs
    cases qs with
    | nil => exact absurd rfl hqs
    | cons a l =>
      rw [langchain_questions, hct, jsonStage, hni, hall, hext]
      rfl
  · intro sc det h
    cases h

/-- Witness for C7 at a concrete request, non-empty question set. -/
theorem C7_questions_outcome_witness :
    langchain_questions "application/pdf" "resume.pdf" 2
        (.dict [("techStack", "Python"), ("difficultyLevel", "3"), ("questionCount", "5")])
        (.text "Experienced Python developer") (.questions ["q1", "q2"])
      = (.success ⟨2, "resume.pdf",
          [("techStack", "Python"), ("difficultyLevel", "3"), ("questionCount", "5")]⟩
          ["q1", "q2"] 2, [.extractor, .evalClient]) :=
  (C7_questions_outcome "resume.pdf" 2
    [("techStack", "Python"), ("difficultyLevel", "3"), ("questionCount", "5")]
    "Experienced Python developer" ["q1", "q2"]
    (by decide) (by decide) (by decide)).2.1 (by decide)

/-- C8: for every `/complete-evaluation` request that passes validation, a
result from `evaluate_candidate` tagged `status = "error"` is translated to
a 500 whose detail equals the embedded `error` message, and a result tagged
`status = "success"` is returned unchanged. -/
theorem C8_error_status_translation (text ts : String) (diff qc : Int)
    (ans : List (String × String)) (r : CEvalResult)
    (htext : ¬ (text = "" ∨ pyStrip text = ""))
    (hts : ¬ (ts = "" ∨ pyStrip ts = ""))
    (hd : 1 ≤ diff ∧ diff ≤ 5) (hq : 1 ≤ qc ∧ qc ≤ 20) (hans : ans ≠ []) :
    (r.statusTag = "error" →
      complete_evaluation "application/pdf" (.text text) ts diff qc ans r
        = (.httpError 500 r.errorMsg, [.extractor, .evalClient])) ∧
    (r.statusTag = "success" →
      complete_evaluation "application/pdf" (.text text) ts diff qc ans r
        = (.success r, [.extractor, .evalClient])) := by
  have hct : pdfAllowList.contains "application/pdf" = true := by decide
  have hext : extractTextBlock (.text text) = .value text := by
    rw [extractTextBlock]
    simp only [if_neg htext]
  have hani : ans.isEmpty = false := by
    cases ans with
    | nil => exact absurd rfl hans
    | cons a l => rfl
  have hd2 : ¬ ¬ (1 ≤ diff ∧ diff ≤ 5) := not_not_intro hd
  have hq2 : ¬ ¬ (1 ≤ qc ∧ qc ≤ 20) := not_not_intro hq
  constructor
  · intro herr
    rw [complete_evaluation, hct, hext, if_neg hts, if_neg hd2, if_neg hq2,
      hani, if_pos herr]
    rfl
  · intro hsucc
    have hnerr : ¬ (r.statusTag = "error") := by
      rw [hsucc]
      decide
    rw [complete_evaluation, hct, hext, if_neg hts, if_neg hd2, if_neg hq2,
      hani, if_neg hnerr]
    rfl

/-- Witness for C8 at concrete requests, both tags. -/
theorem C8_error_status_translation_witness :
    complete_evaluation "application/pdf" (.text "resume") "Python" 3 5 [("q","a")]
        ⟨"error", "Evaluation backend failed", []⟩
      = (.httpError 500 "Evaluation backend failed", [.extractor, .evalClient]) ∧
    complete_evaluation "application/pdf" (.text "resume") "Python" 3 5 [("q","a")]
        ⟨"success", "", [("overall_score", "80")]⟩
      = (.success ⟨"success", "", [("overall_score", "80")]⟩,
         [.extractor, .evalClient]) :=
  ⟨(C8_error_status_translation "resume" "Python" 3 5 [("q","a")]
      ⟨"error", "Evaluation backend failed", []⟩
      (by decide) (by decide) (by decide) (by decide) (by decide)).1 rfl,
   (C8_error_status_translation "resume" "Python" 3 5 [("q","a")]
      ⟨"success", "", [("overall_score", "80")]⟩
      (by decide) (by decide) (by decide) (by decide) (by decide)).2 rfl⟩

/-- C10: an answer map containing a truthy non-string value makes the
emptiness check call `.strip()` on it, raising an `AttributeError` that the
generic handler turns into a 500 outcome — not a 400 validation failure —
with no evaluation-client call. -/
theorem C10_nonstring_answer_500 (m : List (String × PyVal)) (ev : ScoreOutcome)
    (h : m.any (fun p => isNonStrTruthy p.2) = true) :
    ∃ msg, check_answers m ev
        = (.httpError 500 ("An unexpected error occurred: " ++ msg), []) ∧
      (∀ det, (check_answers m ev).1 ≠ CAResult.httpError 400 det) := by
  obtain ⟨msg, hmsg⟩ := empty_answers_raises m h
  have hni : m.isEmpty = false := by
    cases m with
    | nil => simp at h
    | cons a t => rfl
  have heq : check_answers m ev
      = (.httpError 500 ("An unexpected error occurred: " ++ msg), []) := by
    simp only [check_answers.eq_def, hni, hmsg]
    rfl
  refine ⟨msg, heq, ?_⟩
  intro det hcontra
  rw [heq] at hcontra
  cases hcontra

/-- Witness for C10 at the concrete map whose second answer is the number 5
(a truthy non-string). -/
theorem C10_nonstring_answer_500_witness :
    ∃ msg, check_answers [("q1", PyVal.str "fine"), ("q2", PyVal.nonStrTruthy "int")]
          (.score 0)
        = (.httpError 500 ("An unexpected error occurred: " ++ msg), []) ∧
      (∀ det, (check_answers [("q1", PyVal.str "fine"), ("q2", PyVal.nonStrTruthy "int")]
          (.score 0)).1 ≠ CAResult.httpError 400 det) :=
  C10_nonstring_answer_500 [("q1", PyVal.str "fine"), ("q2", PyVal.nonStrTruthy "int")]
    (.score 0) (by decide)

end Garuda
